import Mathlib

/-!
Verification development for the kmgrid pointer-navigation tool
(src/main.rs).  The program subdivides each display into regions and
cells, addressed by key presses; a navigation state machine with modes
Screen / Narrow / Cell drives pointer warps, clicks, scrolls and moves
through an injection driver.

Shallow embedding conventions:
* f32 coordinate arithmetic is modelled exactly over the rationals;
  the f32 literals 0.5, 0.25, 0.1 of the source are the exact
  rationals 1/2, 1/4, 1/10 here.
* Rust i32 / usize division and remainder are Int.tdiv / Int.tmod
  (truncation toward zero, as in Rust); the source only ever applies
  them to non-negative operands, where they agree with / and %.
* The Rust cast expression (x as i32) on an f32 is i32cast: truncation
  toward zero with saturation at the i32 bounds.
* External effects (the enigo pointer driver, egui viewport commands)
  are recorded in explicit logs; an enigo call may fail according to a
  per-frame oracle, reproducing the early-return behaviour of the
  question-mark operator in the source.
-/

namespace KM

/-- Key identifiers (egui Key values abstracted as naturals). -/
abbrev KeyId := Nat

/-- The hardcoded Key::Backspace used in handle_screen_input,
handle_grid_input and handle_cell_input. -/
def keyBackspace : KeyId := 300

/-- The hardcoded Key::Enter used in handle_grid_input. -/
def keyEnter : KeyId := 301

/-- The hardcoded Key::Escape used in handle_input. -/
def keyEscape : KeyId := 302

/-- struct Display from the source: id, absolute position, size and
the primary-display usable-area offset. -/
structure Display where
  id : ℤ
  pos : ℚ × ℚ
  size : ℚ × ℚ
  offset : ℚ × ℚ
deriving DecidableEq

/-- Fallback display for the (unreachable in practice) out-of-bounds
index case of Rust Vec indexing. -/
def defaultDisplay : Display := ⟨0, (0, 0), (0, 0), (0, 0)⟩

/-- struct MouseBindings from the source, in source field order. -/
structure MouseBindings where
  move_up : KeyId
  move_down : KeyId
  move_left : KeyId
  move_right : KeyId
  left_click : KeyId
  left_click_and_exit : KeyId
  middle_click : KeyId
  right_click : KeyId
  left_click_down : KeyId
  left_click_up : KeyId
  scroll_up : KeyId
  scroll_down : KeyId
  scroll_left : KeyId
  scroll_right : KeyId
  speed_quarter : KeyId
  speed_half : KeyId
  speed_twice : KeyId
  speed_quadruple : KeyId
deriving DecidableEq

/-- struct KeyBindings from the source; the fixed-size arrays
[Key; 4] and [Key; 15] are lists of the corresponding length. -/
structure KeyBindings where
  prev_screen : KeyId
  next_screen : KeyId
  left_region : List KeyId
  right_region : List KeyId
  skip_to_cell : KeyId
  left_grid : List KeyId
  right_grid : List KeyId
  mouse : MouseBindings
deriving DecidableEq

/-- struct Config from the source (styling omitted: painting is out of
scope and has no effect on navigation or dispatch). -/
structure Config where
  primary_offset_x : ℤ
  primary_offset_y : ℤ
  key_bindings : KeyBindings
  scroll_speed : ℤ
  movement_speed : ℤ
deriving DecidableEq

/-- enum Mode from the source. -/
inductive Mode where
  | Screen
  | Narrow
  | Cell
deriving DecidableEq

/-- struct SharedState from the source, minus the external device and
enigo handles. -/
structure SharedState where
  displays : List Display
  current_display : ℕ
  config : Config
  mode : Mode
  region : ℤ
  cell : ℤ
  mouse_key_down : Finset KeyId
deriving DecidableEq

/-- Scroll axes of the enigo driver. -/
inductive Axis where
  | vertical
  | horizontal
deriving DecidableEq

/-- Mouse buttons of the enigo driver. -/
inductive MButton where
  | left
  | middle
  | right
deriving DecidableEq

/-- Button directions of the enigo driver. -/
inductive MDir where
  | click
  | press
  | release
deriving DecidableEq

/-- One attempted call on the enigo pointer driver. -/
inductive Action where
  | button : MButton → MDir → Action
  | scroll : ℤ → Axis → Action
  | moveRel : ℤ → ℤ → Action
  | moveAbs : ℤ → ℤ → Action
deriving DecidableEq

/-- Viewport commands sent to the egui context. -/
inductive VPCmd where
  | close
  | focus
  | innerSize : ℚ → ℚ → VPCmd
  | outerPos : ℚ → ℚ → VPCmd
deriving DecidableEq

/-- Truncation of a rational toward zero, the rounding used by Rust's
(x as i32) cast on a finite f32. -/
def rtrunc (q : ℚ) : ℤ := Int.tdiv q.num (q.den : ℤ)

/-- Rust (x as i32) on a finite f32 value: truncate toward zero and
saturate at the i32 range bounds. -/
def i32cast (q : ℚ) : ℤ := max (-(2 ^ 31)) (min (2 ^ 31 - 1) (rtrunc q))

/-- The warp-target computation of handle_grid_input (lines 396-417):
given the active display, the current region and the pressed grid-key
index i (the source's usize i embeds as a non-negative integer), the
point the pointer is warped to.  Region size is half the display width
by a quarter of its height; the left 15 grid keys address the left
half of the region (5 columns by 3 rows), the right 15 keys the right
half. -/
def gridWarpTarget (d : Display) (region : ℤ) (i : ℤ) : ℚ × ℚ :=
  let region_size : ℚ × ℚ := (d.size.1 * (1 / 2), d.size.2 * (1 / 4))
  let px := d.pos.1 + (if 4 ≤ region then region_size.1 else 0)
  let py := d.pos.2 + region_size.2 * ((Int.tmod region 4 : ℤ) : ℚ)
  let col := Int.tmod i 5
  let row := Int.tdiv (Int.tmod i 15) 5
  let cell_size : ℚ × ℚ := (region_size.1 * (1 / 10), region_size.2 / 3)
  let px := px + (col : ℚ) * cell_size.1 + cell_size.1 * (1 / 2)
  let py := py + (row : ℚ) * cell_size.2 + cell_size.2 * (1 / 2)
  let px := px + (if 15 ≤ i then region_size.1 * (1 / 2) else 0)
  (px, py)

/-- The two truncated cell coordinates computed by skip_to_cell
(lines 576-581) for a point on a given display. -/
def locateCellXY (d : Display) (p : ℚ × ℚ) : ℤ × ℤ :=
  let region_size : ℚ × ℚ := (d.size.1 * (1 / 2), d.size.2 * (1 / 4))
  let cell_size : ℚ × ℚ := (region_size.1 / 10, region_size.2 / 3)
  let relx := p.1 - d.pos.1
  let rely := p.2 - d.pos.2
  (i32cast (relx / cell_size.1), i32cast (rely / cell_size.2))

/-- The region / cell derivation of skip_to_cell (lines 588-599) from
the truncated cell coordinates. -/
def locateFromXY (cell_x cell_y : ℤ) : ℤ × ℤ :=
  let region := Int.tdiv cell_y 3 + (if 10 ≤ cell_x then 4 else 0)
  let cx := Int.tmod cell_x 10
  let cy := Int.tmod cell_y 3
  let cell := if 5 ≤ cx then 15 + cy * 5 + (cx - 5) else cy * 5 + cx
  (region, cell)

/-- The full point-to-(region, cell) computation of skip_to_cell for
one display. -/
def locateInDisplay (d : Display) (p : ℚ × ℚ) : ℤ × ℤ :=
  locateFromXY (locateCellXY d p).1 (locateCellXY d p).2

/-- egui Rect::from_min_size(d.pos, d.size).contains(p): inclusive on
all four edges. -/
def rectContains (d : Display) (p : ℚ × ℚ) : Bool :=
  decide (d.pos.1 ≤ p.1 ∧ p.1 ≤ d.pos.1 + d.size.1 ∧
          d.pos.2 ≤ p.2 ∧ p.2 ≤ d.pos.2 + d.size.2)

/-- The display-search loop of skip_to_cell: the first display (in
registry order) whose rectangle contains the point, with its index. -/
def findDisplay (ds : List Display) (p : ℚ × ℚ) : Option (ℕ × Display) :=
  ds.enum.find? (fun x => rectContains x.2 p)

/-- move_to_display (lines 328-338): clamp the index by wrapping
modulo the display count, then reposition and resize the overlay
viewport to the new display's usable rectangle. -/
def moveToDisplay (s : SharedState) (idx : ℕ) : SharedState × List VPCmd :=
  let s' := { s with current_display := idx % s.displays.length }
  let d := s'.displays.getD s'.current_display defaultDisplay
  (s', [VPCmd.innerSize (d.size.1 - d.offset.1) (d.size.2 - d.offset.2),
        VPCmd.outerPos (d.pos.1 + d.offset.1) (d.pos.2 + d.offset.2)])

/-- The prev-screen target index computed in handle_screen_input
(lines 369-373) before move_to_display applies its modulo. -/
def prevTargetIdx (len cur : ℕ) : ℕ := if cur = 0 then len - 1 else cur - 1

/-- Net effect of the prev-screen transition on the active display
index (handle_screen_input composed with move_to_display). -/
def prevScreenIdx (len cur : ℕ) : ℕ := prevTargetIdx len cur % len

/-- Net effect of the next-screen transition on the active display
index (handle_screen_input composed with move_to_display). -/
def nextScreenIdx (len cur : ℕ) : ℕ := (cur + 1) % len

/-- skip_to_cell (lines 570-605): locate the pointer, and on a match
enter Cell mode, switch display if needed, set region and cell from
the located pair and clear the armed-key set.  No containing display
is a silent no-op. -/
def skipToCell (mouse : ℚ × ℚ) (s : SharedState) : SharedState × List VPCmd :=
  match findDisplay s.displays mouse with
  | none => (s, [])
  | some (i, d) =>
      let s1 := { s with mode := Mode.Cell }
      let r := if i ≠ s.current_display then moveToDisplay s1 i else (s1, [])
      let rc := locateInDisplay d mouse
      ({ r.1 with region := rc.1, cell := rc.2, mouse_key_down := ∅ }, r.2)

/-- handle_screen_input (lines 340-379): region-key selection enters
Narrow mode, Backspace closes the overlay, then the skip-to-cell and
prev/next-screen keys are handled, sequentially in source order. -/
def handleScreenInput (pressed : KeyId → Bool) (mouse : ℚ × ℚ)
    (s : SharedState) : SharedState × List VPCmd :=
  let regionKeys := s.config.key_bindings.left_region ++ s.config.key_bindings.right_region
  let s1 :=
    match regionKeys.findIdx? pressed with
    | some i => { s with region := (i : ℤ), mode := Mode.Narrow, cell := -1 }
    | none => s
  let cmds1 := if pressed keyBackspace then [VPCmd.close] else []
  let r2 :=
    if pressed s.config.key_bindings.skip_to_cell then skipToCell mouse s1
    else (s1, [])
  let r3 :=
    if pressed s.config.key_bindings.prev_screen then
      moveToDisplay r2.1 (prevTargetIdx r2.1.displays.length r2.1.current_display)
    else if pressed s.config.key_bindings.next_screen then
      moveToDisplay r2.1 (r2.1.current_display + 1)
    else (r2.1, [])
  (r3.1, cmds1 ++ r2.2 ++ r3.2)

/-- Result of one frame's input handling: new state, attempted enigo
calls in order, viewport commands, and whether an enigo call failed
(making the handler return early with Err, logged by update). -/
structure FrameOut where
  state : SharedState
  actions : List Action
  cmds : List VPCmd
  err : Bool
deriving DecidableEq

/-- The Backspace / Enter checks at the end of handle_grid_input
(lines 429-434): Backspace returns to Screen; Enter with a
non-negative cell re-enters Cell.  These run only when no enigo error
occurred earlier in the frame. -/
def afterGrid (pressed : KeyId → Bool) (f : FrameOut) : FrameOut :=
  let f1 :=
    if pressed keyBackspace then
      { f with state := { f.state with mode := Mode.Screen } }
    else f
  if pressed keyEnter ∧ 0 ≤ f1.state.cell then
    { f1 with state := { f1.state with mode := Mode.Cell } }
  else f1

/-- handle_grid_input (lines 381-436): the first pressed grid key (left
then right, 30 keys) selects the cell and warps the pointer to the
cell center; only if the warp succeeds does the mode become Cell and
the armed-key set get cleared (on an enigo error the function returns
Err at the question mark, with cell already updated).  Afterwards the
Backspace and Enter checks run. -/
def handleGridInput (pressed : KeyId → Bool) (ok : ℕ → Bool)
    (s : SharedState) : FrameOut :=
  let keys := s.config.key_bindings.left_grid ++ s.config.key_bindings.right_grid
  match keys.findIdx? pressed with
  | some i =>
      let s1 := { s with cell := (i : ℤ) }
      let d := s1.displays.getD s1.current_display defaultDisplay
      let p := gridWarpTarget d s1.region (i : ℤ)
      let a := Action.moveAbs (i32cast p.1) (i32cast p.2)
      if ok 0 then
        afterGrid pressed
          { state := { s1 with mode := Mode.Cell, mouse_key_down := ∅ },
            actions := [a], cmds := [], err := false }
      else
        { state := s1, actions := [a], cmds := [], err := true }
  | none =>
      afterGrid pressed { state := s, actions := [], cmds := [], err := false }

/-- Mutable context threaded through one handle_cell_input frame: the
armed-key set (mouse_key_down), the attempted enigo calls, the
viewport commands, the number of enigo calls so far (consulted by the
failure oracle) and the early-return flag. -/
structure CellCtx where
  keys : Finset KeyId
  actions : List Action
  cmds : List VPCmd
  calls : ℕ
  err : Bool
deriving DecidableEq

/-- One enigo driver call: append the attempted action and consult the
success oracle; on failure the err flag makes every later step of the
frame a no-op (the source returns Err at the question mark). -/
def enigoCall (ok : ℕ → Bool) (a : Action) (c : CellCtx) : CellCtx :=
  if c.err then c
  else { c with actions := c.actions ++ [a], calls := c.calls + 1,
                err := !ok c.calls }

/-- One viewport command inside handle_cell_input, skipped after an
early return. -/
def vpSend (v : VPCmd) (c : CellCtx) : CellCtx :=
  if c.err then c else { c with cmds := c.cmds ++ [v] }

/-- is_held_with_check (lines 448-458): a key fires its continuous
action only while it is both armed (in mouse_key_down) and held; a key
observed released gets (re)armed.  Returns the fire decision and the
updated context. -/
def heldWithCheck (held : KeyId → Bool) (k : KeyId) (c : CellCtx) :
    Bool × CellCtx :=
  if c.err then (false, c)
  else if k ∈ c.keys then (held k, c)
  else if !held k then (false, { c with keys := insert k c.keys })
  else (false, c)

/-- The relative-move distance computation of handle_cell_input
(lines 517-529): movement_speed scaled by the held speed modifiers in
source order quarter, half, twice, quadruple, with Rust i32 division
truncating toward zero. -/
def computeDist (speed : ℤ) (quarter half twice quadruple : Bool) : ℤ :=
  let d := speed
  let d := if quarter then Int.tdiv d 4 else d
  let d := if half then Int.tdiv d 2 else d
  let d := if twice then d * 2 else d
  let d := if quadruple then d * 4 else d
  d

/-- The dispatch body of handle_cell_input (lines 438-548) on the
armed-key set: clicks, the scroll chain, press/release, the four
relative moves, all threading the context; the trailing Backspace
mode change is applied by handleCellInput. -/
def cellPass (cfg : Config) (pressed held : KeyId → Bool) (ok : ℕ → Bool)
    (c0 : CellCtx) : CellCtx :=
  let b := cfg.key_bindings.mouse
  let c1 :=
    if pressed b.left_click_and_exit then
      vpSend VPCmd.close (enigoCall ok (Action.button MButton.left MDir.click) c0)
    else c0
  let c2 :=
    if pressed b.left_click then
      vpSend VPCmd.focus (enigoCall ok (Action.button MButton.left MDir.click) c1)
    else if pressed b.right_click then
      vpSend VPCmd.close (enigoCall ok (Action.button MButton.right MDir.click) c1)
    else if pressed b.middle_click then
      vpSend VPCmd.close (enigoCall ok (Action.button MButton.middle MDir.click) c1)
    else c1
  let su := heldWithCheck held b.scroll_up c2
  let c3 :=
    if su.1 then
      enigoCall ok (Action.moveRel 0 0)
        (enigoCall ok (Action.scroll (-cfg.scroll_speed) Axis.vertical) su.2)
    else
      let sd := heldWithCheck held b.scroll_down su.2
      if sd.1 then
        enigoCall ok (Action.moveRel 0 0)
          (enigoCall ok (Action.scroll cfg.scroll_speed Axis.vertical) sd.2)
      else
        let sl := heldWithCheck held b.scroll_left sd.2
        if sl.1 then
          enigoCall ok (Action.moveRel 0 0)
            (enigoCall ok (Action.scroll (-cfg.scroll_speed) Axis.horizontal) sl.2)
        else
          let sr := heldWithCheck held b.scroll_right sl.2
          if sr.1 then
            enigoCall ok (Action.moveRel 0 0)
              (enigoCall ok (Action.scroll cfg.scroll_speed Axis.horizontal) sr.2)
          else sr.2
  let c4 :=
    if pressed b.left_click_down then
      enigoCall ok (Action.button MButton.left MDir.press) c3
    else if pressed b.left_click_up then
      enigoCall ok (Action.button MButton.left MDir.release) c3
    else c3
  let dist := computeDist cfg.movement_speed
    (held b.speed_quarter) (held b.speed_half)
    (held b.speed_twice) (held b.speed_quadruple)
  let md := heldWithCheck held b.move_down c4
  let c5 := if md.1 then enigoCall ok (Action.moveRel 0 dist) md.2 else md.2
  let mu := heldWithCheck held b.move_up c5
  let c6 := if mu.1 then enigoCall ok (Action.moveRel 0 (-dist)) mu.2 else mu.2
  let ml := heldWithCheck held b.move_left c6
  let c7 := if ml.1 then enigoCall ok (Action.moveRel (-dist) 0) ml.2 else ml.2
  let mr := heldWithCheck held b.move_right c7
  let c8 := if mr.1 then enigoCall ok (Action.moveRel dist 0) mr.2 else mr.2
  c8

/-- handle_cell_input (lines 438-548): run the dispatch body, then the
trailing Backspace check (returning to Narrow) provided no enigo call
failed earlier in the frame. -/
def handleCellInput (pressed held : KeyId → Bool) (ok : ℕ → Bool)
    (s : SharedState) : FrameOut :=
  let c := cellPass s.config pressed held ok ⟨s.mouse_key_down, [], [], 0, false⟩
  let mode' :=
    if c.err = false ∧ pressed keyBackspace then Mode.Narrow else s.mode
  { state := { s with mouse_key_down := c.keys, mode := mode' },
    actions := c.actions, cmds := c.cmds, err := c.err }

/-- handle_input (lines 550-568): Escape closes the overlay viewport,
then exactly one of the three mode handlers runs, selected by the
current mode. -/
def handleInput (pressed held : KeyId → Bool) (mouse : ℚ × ℚ)
    (ok : ℕ → Bool) (s : SharedState) : FrameOut :=
  let esc := if pressed keyEscape then [VPCmd.close] else []
  match s.mode with
  | Mode.Screen =>
      let r := handleScreenInput pressed mouse s
      { state := r.1, actions := [], cmds := esc ++ r.2, err := false }
  | Mode.Narrow =>
      let f := handleGridInput pressed ok s
      { f with cmds := esc ++ f.cmds }
  | Mode.Cell =>
      let f := handleCellInput pressed held ok s
      { f with cmds := esc ++ f.cmds }

/-- Reachable navigation states: the startup state of main (lines
290-302: mode Screen, region 0, cell -1, empty armed-key set, any
display registry, initial display index and configuration), closed
under one frame of handle_input with arbitrary key, pointer and
driver-failure oracles.  update (lines 622-628) only logs a returned
error, so the session continues with the returned state either way. -/
inductive Reachable : SharedState → Prop where
  | init (displays : List Display) (cur : ℕ) (cfg : Config) :
      Reachable ⟨displays, cur, cfg, Mode.Screen, 0, -1, ∅⟩
  | step (s : SharedState) (pressed held : KeyId → Bool) (mouse : ℚ × ℚ)
      (ok : ℕ → Bool) : Reachable s →
      Reachable (handleInput pressed held mouse ok s).state

/-! Concrete fixtures for scenario claims: a binding table with all
distinct keys, a configuration with the spec's movement speed 100, and
the spec scenario display (position (0,0), size (1000,900), no
offset). -/

/-- Concrete mouse bindings (all key ids distinct). -/
def mb0 : MouseBindings :=
  ⟨10, 11, 12, 13, 20, 21, 22, 23, 24, 25, 30, 31, 32, 33, 40, 41, 42, 43⟩

/-- Concrete key bindings (all key ids distinct). -/
def kb0 : KeyBindings :=
  ⟨50, 51, [60, 61, 62, 63], [64, 65, 66, 67], 52,
   [70, 71, 72, 73, 74, 75, 76, 77, 78, 79, 80, 81, 82, 83, 84],
   [85, 86, 87, 88, 89, 90, 91, 92, 93, 94, 95, 96, 97, 98, 99], mb0⟩

/-- Concrete configuration: scroll speed 3, movement speed 100. -/
def cfg0 : Config := ⟨0, 0, kb0, 3, 100⟩

/-- The spec scenario display: position (0,0), size (1000,900), zero
offset. -/
def display0 : Display := ⟨1, (0, 0), (1000, 900), (0, 0)⟩

/-- Narrow-mode state about to enter Cell via the first grid key, with
a stale armed key left over. -/
def c6Start : SharedState := ⟨[display0], 0, cfg0, Mode.Narrow, 0, -1, {77}⟩

/-- The frame that enters Cell mode via grid key 70 (index 0). -/
def c6Entry : FrameOut := handleGridInput (fun k => k == 70) (fun _ => true) c6Start

/-- Run successive Cell-mode polls; in each poll the single key k is
held or not according to the schedule, nothing is pressed, and every
enigo call succeeds.  Returns the attempted actions of each poll. -/
def c6Run (k : KeyId) : List Bool → SharedState → List (List Action)
  | [], _ => []
  | h :: rest, s =>
      let f := handleCellInput (fun _ => false) (fun q => h && (q == k)) (fun _ => true) s
      f.actions :: c6Run k rest f.state

/-- The debounce schedule of the spec: five polls held, one released,
three held. -/
def c6Pattern : List Bool := [true, true, true, true, true, false, true, true, true]

/-- The eight continuous-action keys of cfg0 with the enigo action
each fires (relative moves at movement speed 100, scrolls at scroll
speed 3). -/
def contKeys : List (KeyId × Action) :=
  [(10, Action.moveRel 0 (-100)), (11, Action.moveRel 0 100),
   (12, Action.moveRel (-100) 0), (13, Action.moveRel 100 0),
   (30, Action.scroll (-3) Axis.vertical), (31, Action.scroll 3 Axis.vertical),
   (32, Action.scroll (-3) Axis.horizontal), (33, Action.scroll 3 Axis.horizontal)]

/-- A Cell-mode state on display0 with nothing armed. -/
def cellState : SharedState := ⟨[display0], 0, cfg0, Mode.Cell, 1, 22, ∅⟩

/-- Cell frame with quarter and double speed modifiers held and
move_right held and armed. -/
def c7Quarter : FrameOut :=
  handleCellInput (fun _ => false) (fun k => k == 40 || k == 42 || k == 13)
    (fun _ => true) { cellState with mouse_key_down := {13} }

/-- Cell frame with half and double speed modifiers held and
move_right held and armed. -/
def c7Half : FrameOut :=
  handleCellInput (fun _ => false) (fun k => k == 41 || k == 42 || k == 13)
    (fun _ => true) { cellState with mouse_key_down := {13} }

/-- Sequential modifier application in the fixed order quarter, half,
double, quadruple, as the spec words it (each factor applied exactly
when its key is held, division truncating like Rust i32 division). -/
def specSeqSpeed (speed : ℤ) (quarter half twice quadruple : Bool) : ℤ :=
  (fun d => if quadruple then d * 4 else d)
    ((fun d => if twice then d * 2 else d)
      ((fun d => if half then Int.tdiv d 2 else d)
        ((fun d => if quarter then Int.tdiv d 4 else d) speed)))

/-- Cell frame where the left click is pressed, move_down is held and
armed, and the first enigo call (the click) fails. -/
def c9Fail : FrameOut :=
  handleCellInput (fun k => k == 20) (fun k => k == 11) (fun n => !(n == 0))
    { cellState with mouse_key_down := {11} }

/-- The same frame with every enigo call succeeding. -/
def c9Ok : FrameOut :=
  handleCellInput (fun k => k == 20) (fun k => k == 11) (fun _ => true)
    { cellState with mouse_key_down := {11} }

/-- Cell frame with only the left click pressed. -/
def c10Left : FrameOut :=
  handleCellInput (fun k => k == 20) (fun _ => false) (fun _ => true) cellState

/-- Cell frame with only left-click-and-exit pressed. -/
def c10Exit : FrameOut :=
  handleCellInput (fun k => k == 21) (fun _ => false) (fun _ => true) cellState

/-- Cell frame with only the middle click pressed. -/
def c10Middle : FrameOut :=
  handleCellInput (fun k => k == 22) (fun _ => false) (fun _ => true) cellState

/-- Cell frame with only the right click pressed. -/
def c10Right : FrameOut :=
  handleCellInput (fun k => k == 23) (fun _ => false) (fun _ => true) cellState

/-- Narrow-mode state with region 3 selected and no cell yet. -/
def c4State : SharedState := ⟨[display0], 0, cfg0, Mode.Narrow, 3, -1, ∅⟩

/-- The frame pressing only Backspace in that state. -/
def c4Out : FrameOut :=
  handleGridInput (fun k => k == keyBackspace) (fun _ => true) c4State

/-- Narrow-mode state with cell 3 already selected and key 11 armed. -/
def c5State : SharedState := ⟨[display0], 0, cfg0, Mode.Narrow, 1, 3, {11}⟩

/-- The frame pressing only Enter (the confirm key) in that state. -/
def c5Out : FrameOut :=
  handleGridInput (fun k => k == keyEnter) (fun _ => true) c5State

/-- The startup state on display0 with cfg0 (mode Screen, region 0,
cell -1, nothing armed). -/
def s0 : SharedState := ⟨[display0], 0, cfg0, Mode.Screen, 0, -1, ∅⟩

/-- Startup state after one frame pressing region key 60: Narrow mode
with region 0 and cell -1. -/
def c3Narrow : SharedState :=
  (handleInput (fun k => k == 60) (fun _ => false) (0, 0) (fun _ => true) s0).state

/-- That state after one frame pressing grid key 70: Cell mode. -/
def c3CellState : SharedState :=
  (handleInput (fun k => k == 70) (fun _ => false) (0, 0) (fun _ => true) c3Narrow).state

/-! Helper lemmas about the numeric embedding. -/

lemma rtrunc_eq_floor {q : ℚ} (h : 0 ≤ q) : rtrunc q = ⌊q⌋ := by
  unfold rtrunc
  rw [Rat.floor_def]
  exact Int.tdiv_eq_ediv (Rat.num_nonneg.mpr h) (Int.natCast_nonneg q.den)

lemma rtrunc_nonneg {q : ℚ} (h : 0 ≤ q) : 0 ≤ rtrunc q :=
  Int.tdiv_nonneg (Rat.num_nonneg.mpr h) (Int.natCast_nonneg q.den)

lemma i32cast_nonneg {q : ℚ} (h : 0 ≤ q) : 0 ≤ i32cast q := by
  unfold i32cast
  have h1 : 0 ≤ rtrunc q := rtrunc_nonneg h
  have h2 : (0 : ℤ) ≤ min (2 ^ 31 - 1) (rtrunc q) := le_min (by norm_num) h1
  exact le_trans h2 (le_max_right _ _)

lemma i32cast_eval {q : ℚ} {n : ℤ} (h0 : 0 ≤ n) (hn : n < 2 ^ 31)
    (h1 : (n : ℚ) ≤ q) (h2 : q < (n : ℚ) + 1) : i32cast q = n := by
  have hq : 0 ≤ q := le_trans (by exact_mod_cast h0) h1
  have hf : ⌊q⌋ = n := Int.floor_eq_iff.mpr ⟨h1, h2⟩
  unfold i32cast
  rw [rtrunc_eq_floor hq, hf, min_eq_right (by omega), max_eq_right (by omega)]

lemma gridWarpTarget_eval (d : Display) (region i : ℤ) :
    gridWarpTarget d region i =
      (d.pos.1 + (if 4 ≤ region then d.size.1 * (1 / 2) else 0)
         + (Int.tmod i 5 : ℚ) * (d.size.1 * (1 / 2) * (1 / 10))
         + d.size.1 * (1 / 2) * (1 / 10) * (1 / 2)
         + (if 15 ≤ i then d.size.1 * (1 / 2) * (1 / 2) else 0),
       d.pos.2 + d.size.2 * (1 / 4) * (Int.tmod region 4 : ℚ)
         + (Int.tdiv (Int.tmod i 15) 5 : ℚ) * (d.size.2 * (1 / 4) / 3)
         + d.size.2 * (1 / 4) / 3 * (1 / 2)) := rfl

lemma locateCellXY_fst (d : Display) (p : ℚ × ℚ) :
    (locateCellXY d p).1 = i32cast ((p.1 - d.pos.1) / (d.size.1 * (1 / 2) / 10)) := rfl

lemma locateCellXY_snd (d : Display) (p : ℚ × ℚ) :
    (locateCellXY d p).2 = i32cast ((p.2 - d.pos.2) / (d.size.2 * (1 / 4) / 3)) := rfl

lemma locateFromXY_eval (x y : ℤ) : locateFromXY x y =
    (Int.tdiv y 3 + (if 10 ≤ x then 4 else 0),
     if 5 ≤ Int.tmod x 10 then 15 + Int.tmod y 3 * 5 + (Int.tmod x 10 - 5)
     else Int.tmod y 3 * 5 + Int.tmod x 10) := rfl

/-! Concrete geometry evaluations on the scenario display. -/

lemma warp_display0_5_7 : gridWarpTarget display0 5 7 = (625, 675 / 2) := by
  rw [gridWarpTarget_eval]
  norm_num [display0, show Int.tmod 7 5 = 2 from by decide,
    show Int.tdiv (Int.tmod 7 15) 5 = 1 from by decide,
    show Int.tmod 5 4 = 1 from by decide]

lemma warp_display0_1_22 : gridWarpTarget display0 1 22 = (375, 675 / 2) := by
  rw [gridWarpTarget_eval]
  norm_num [display0, show Int.tmod 22 5 = 2 from by decide,
    show Int.tdiv (Int.tmod 22 15) 5 = 1 from by decide,
    show Int.tmod 1 4 = 1 from by decide]

lemma warp_display0_8_0 : gridWarpTarget display0 8 0 = (525, 75 / 2) := by
  rw [gridWarpTarget_eval]
  norm_num [display0, show Int.tmod 0 5 = 0 from by decide,
    show Int.tdiv (Int.tmod 0 15) 5 = 0 from by decide,
    show Int.tmod 8 4 = 0 from by decide]

lemma locate_display0_380_320 : locateInDisplay display0 (380, 320) = (1, 22) := by
  have hx : (locateCellXY display0 (380, 320)).1 = 7 := by
    rw [locateCellXY_fst]
    exact i32cast_eval (by norm_num) (by norm_num) (by norm_num [display0])
      (by norm_num [display0])
  have hy : (locateCellXY display0 (380, 320)).2 = 4 := by
    rw [locateCellXY_snd]
    exact i32cast_eval (by norm_num) (by norm_num) (by norm_num [display0])
      (by norm_num [display0])
  unfold locateInDisplay
  rw [hx, hy]
  decide

lemma locate_display0_warp8 :
    locateInDisplay display0 (gridWarpTarget display0 8 0) = (4, 0) := by
  rw [warp_display0_8_0]
  have hx : (locateCellXY display0 (525, 75 / 2)).1 = 10 := by
    rw [locateCellXY_fst]
    exact i32cast_eval (by norm_num) (by norm_num) (by norm_num [display0])
      (by norm_num [display0])
  have hy : (locateCellXY display0 (525, 75 / 2)).2 = 0 := by
    rw [locateCellXY_snd]
    exact i32cast_eval (by norm_num) (by norm_num) (by norm_num [display0])
      (by norm_num [display0])
  unfold locateInDisplay
  rw [hx, hy]
  decide

/-! Structural lemmas about the handlers. -/

lemma afterGrid_mouse_key_down (pressed : KeyId → Bool) (f : FrameOut) :
    (afterGrid pressed f).state.mouse_key_down = f.state.mouse_key_down := by
  unfold afterGrid
  dsimp only
  split_ifs <;> rfl

lemma afterGrid_cell (pressed : KeyId → Bool) (f : FrameOut) :
    (afterGrid pressed f).state.cell = f.state.cell := by
  unfold afterGrid
  dsimp only
  split_ifs <;> rfl

lemma afterGrid_region (pressed : KeyId → Bool) (f : FrameOut) :
    (afterGrid pressed f).state.region = f.state.region := by
  unfold afterGrid
  dsimp only
  split_ifs <;> rfl

lemma findDisplay_contains {ds : List Display} {p : ℚ × ℚ} {i : ℕ} {d : Display}
    (h : findDisplay ds p = some (i, d)) : rectContains d p = true := by
  unfold findDisplay at h
  have h2 := List.find?_some h
  simpa using h2

lemma locateFromXY_cell_nonneg {x y : ℤ} (hx : 0 ≤ x) (hy : 0 ≤ y) :
    0 ≤ (locateFromXY x y).2 := by
  rw [locateFromXY_eval]
  rw [Int.tmod_eq_emod hx (by norm_num : (0:ℤ) ≤ 10),
    Int.tmod_eq_emod hy (by norm_num : (0:ℤ) ≤ 3)]
  dsimp only
  split_ifs <;> omega

lemma locateInDisplay_cell_nonneg {d : Display} {p : ℚ × ℚ}
    (h : rectContains d p = true) : 0 ≤ (locateInDisplay d p).2 := by
  simp only [rectContains, decide_eq_true_eq] at h
  have hsx : (0 : ℚ) ≤ d.size.1 := by linarith [h.1, h.2.1]
  have hsy : (0 : ℚ) ≤ d.size.2 := by linarith [h.2.2.1, h.2.2.2]
  have hx : 0 ≤ (locateCellXY d p).1 := by
    rw [locateCellXY_fst]
    refine i32cast_nonneg (div_nonneg (by linarith [h.1]) ?_)
    have h3 : (0 : ℚ) ≤ d.size.1 * (1 / 2) := by linarith
    linarith
  have hy : 0 ≤ (locateCellXY d p).2 := by
    rw [locateCellXY_snd]
    refine i32cast_nonneg (div_nonneg (by linarith [h.2.2.1]) ?_)
    have h3 : (0 : ℚ) ≤ d.size.2 * (1 / 4) := by linarith
    linarith
  exact locateFromXY_cell_nonneg hx hy

lemma skipToCell_pres (mouse : ℚ × ℚ) (s : SharedState)
    (h : s.mode = Mode.Cell → 0 ≤ s.cell) :
    (skipToCell mouse s).1.mode = Mode.Cell → 0 ≤ (skipToCell mouse s).1.cell := by
  unfold skipToCell
  rcases hfd : findDisplay s.displays mouse with _ | ⟨i, d⟩
  · exact h
  · dsimp only
    intro hm
    exact locateInDisplay_cell_nonneg (findDisplay_contains hfd)

lemma ite_moveToDisplay_pres {c1 c2 : Prop} [Decidable c1] [Decidable c2]
    (t : SharedState) (i1 i2 : ℕ)
    (h : t.mode = Mode.Cell → 0 ≤ t.cell) :
    (if c1 then moveToDisplay t i1
     else if c2 then moveToDisplay t i2 else (t, [])).1.mode = Mode.Cell →
    0 ≤ (if c1 then moveToDisplay t i1
         else if c2 then moveToDisplay t i2 else (t, [])).1.cell := by
  split_ifs <;> exact h

lemma ite_skipToCell_pres {c : Prop} [Decidable c] (mouse : ℚ × ℚ)
    (t : SharedState) (h : t.mode = Mode.Cell → 0 ≤ t.cell) :
    (if c then skipToCell mouse t else (t, [])).1.mode = Mode.Cell →
    0 ≤ (if c then skipToCell mouse t else (t, [])).1.cell := by
  split_ifs with hc
  · exact skipToCell_pres mouse t h
  · exact h

lemma handleScreenInput_pres (pressed : KeyId → Bool) (mouse : ℚ × ℚ)
    (s : SharedState) (h : s.mode = Mode.Cell → 0 ≤ s.cell) :
    (handleScreenInput pressed mouse s).1.mode = Mode.Cell →
    0 ≤ (handleScreenInput pressed mouse s).1.cell := by
  unfold handleScreenInput
  dsimp only
  apply ite_moveToDisplay_pres
  apply ite_skipToCell_pres
  rcases hfi : List.findIdx? pressed
      (s.config.key_bindings.left_region ++ s.config.key_bindings.right_region)
    with _ | i
  · exact h
  · intro hm
    simp at hm

lemma afterGrid_pres (pressed : KeyId → Bool) (f : FrameOut)
    (h : f.state.mode = Mode.Cell → 0 ≤ f.state.cell) :
    (afterGrid pressed f).state.mode = Mode.Cell →
    0 ≤ (afterGrid pressed f).state.cell := by
  unfold afterGrid
  dsimp only
  split_ifs with h1 h2 h3
  · exact fun _ => h2.2
  · intro hm
    simp at hm
  · exact fun _ => h3.2
  · exact fun hm => h hm

lemma handleGridInput_pres (pressed : KeyId → Bool) (ok : ℕ → Bool)
    (s : SharedState) (h : s.mode = Mode.Cell → 0 ≤ s.cell) :
    (handleGridInput pressed ok s).state.mode = Mode.Cell →
    0 ≤ (handleGridInput pressed ok s).state.cell := by
  unfold handleGridInput
  dsimp only
  rcases hfi : List.findIdx? pressed
      (s.config.key_bindings.left_grid ++ s.config.key_bindings.right_grid)
    with _ | i
  · exact afterGrid_pres pressed _ h
  · dsimp only
    split_ifs with hok
    · refine afterGrid_pres pressed _ ?_
      intro hm
      dsimp only
      omega
    · intro hm
      dsimp only
      omega

lemma handleCellInput_pres (pressed held : KeyId → Bool) (ok : ℕ → Bool)
    (s : SharedState) (h : s.mode = Mode.Cell → 0 ≤ s.cell) :
    (handleCellInput pressed held ok s).state.mode = Mode.Cell →
    0 ≤ (handleCellInput pressed held ok s).state.cell := by
  unfold handleCellInput
  dsimp only
  intro hm
  split_ifs at hm with hcond
  exact h hm

lemma handleInput_pres (pressed held : KeyId → Bool) (mouse : ℚ × ℚ)
    (ok : ℕ → Bool) (s : SharedState) (h : s.mode = Mode.Cell → 0 ≤ s.cell) :
    (handleInput pressed held mouse ok s).state.mode = Mode.Cell →
    0 ≤ (handleInput pressed held mouse ok s).state.cell := by
  unfold handleInput
  cases hs : s.mode with
  | Screen =>
      dsimp only
      exact handleScreenInput_pres pressed mouse s h
  | Narrow =>
      dsimp only
      exact handleGridInput_pres pressed ok s h
  | Cell =>
      dsimp only
      exact handleCellInput_pres pressed held ok s h

lemma nextScreenIdx_iterate (n d k : ℕ) (hd : d < n) :
    (nextScreenIdx n)^[k] d = (d + k) % n := by
  induction k with
  | zero => simp [Nat.mod_eq_of_lt hd]
  | succ k ih =>
      rw [Function.iterate_succ_apply', ih]
      unfold nextScreenIdx
      rw [Nat.mod_add_mod]
      congr 1

lemma prevScreenIdx_eq (n d : ℕ) (hn : 1 ≤ n) (hd : d < n) :
    prevScreenIdx n d = (d + (n - 1)) % n := by
  unfold prevScreenIdx prevTargetIdx
  rcases Nat.eq_zero_or_pos d with h | h
  · subst h; simp
  · rw [if_neg (by omega)]
    have h2 : d + (n - 1) = (d - 1) + 1 * n := by omega
    rw [h2, Nat.add_mul_mod_self_right]

lemma prevScreenIdx_iterate (n d k : ℕ) (hn : 1 ≤ n) (hd : d < n) :
    (prevScreenIdx n)^[k] d = (d + k * (n - 1)) % n := by
  induction k with
  | zero => simp [Nat.mod_eq_of_lt hd]
  | succ k ih =>
      rw [Function.iterate_succ_apply', ih,
        prevScreenIdx_eq n _ hn (Nat.mod_lt _ (by omega)), Nat.mod_add_mod]
      congr 1
      ring

lemma findDisplay_c5 : findDisplay [display0] (380, 320) = some (0, display0) := by
  have hc : rectContains display0 (380, 320) = true := by
    simp only [rectContains, display0, decide_eq_true_eq]
    norm_num
  simp [findDisplay, List.enum, List.find?, hc]

/-! The claims. -/

/-- Claim C1, amended: the inverse of the forward mapping round-trips,
but over the index ranges the code actually uses, which are regions in
the interval from 0 to 8 (the 8 region keys: a 2 by 4 layout of
half-width regions) and cells in the interval from 0 to 30 (the 30
grid keys: 10 by 3 cells per region), not the claimed 16 regions of 15
cells: for every display with positive width and height, skip_to_cell
applied to the warp target of handle_grid_input returns the same
(region, cell) pair, and the warp target lies on the display. -/
theorem C1_roundtrip (d : Display) (r c : ℤ)
    (hsx : 0 < d.size.1) (hsy : 0 < d.size.2)
    (hr0 : 0 ≤ r) (hr : r < 8) (hc0 : 0 ≤ c) (hc : c < 30) :
    rectContains d (gridWarpTarget d r c) = true ∧
    locateInDisplay d (gridWarpTarget d r c) = (r, c) := by
  have hcol : Int.tmod c 5 = c % 5 := Int.tmod_eq_emod hc0 (by norm_num)
  have hc15 : Int.tmod c 15 = c % 15 := Int.tmod_eq_emod hc0 (by norm_num)
  have hrow : Int.tdiv (Int.tmod c 15) 5 = c % 15 / 5 := by
    rw [hc15]; exact Int.tdiv_eq_ediv (Int.emod_nonneg c (by norm_num)) (by norm_num)
  have hrm : Int.tmod r 4 = r % 4 := Int.tmod_eq_emod hr0 (by norm_num)
  set col : ℤ := c % 5 with hcol_def
  set row : ℤ := c % 15 / 5 with hrow_def
  set rm : ℤ := r % 4 with hrm_def
  set mx : ℤ := (if 4 ≤ r then 10 else 0) + (if 15 ≤ c then 5 else 0) + col with hmx_def
  set my : ℤ := 3 * rm + row with hmy_def
  have hmxb : 0 ≤ mx ∧ mx ≤ 19 := by rw [hmx_def]; split_ifs <;> omega
  have hmyb : 0 ≤ my ∧ my ≤ 11 := by rw [hmy_def]; omega
  have hcsx : (0 : ℚ) < d.size.1 * (1 / 2) / 10 :=
    div_pos (mul_pos hsx (by norm_num)) (by norm_num)
  have hcsy : (0 : ℚ) < d.size.2 * (1 / 4) / 3 :=
    div_pos (mul_pos hsy (by norm_num)) (by norm_num)
  have hxr : ((gridWarpTarget d r c).1 - d.pos.1) / (d.size.1 * (1 / 2) / 10)
      = (mx : ℚ) + 1 / 2 := by
    rw [gridWarpTarget_eval]
    dsimp only
    rw [hcol, hmx_def, div_eq_iff (ne_of_gt hcsx)]
    split_ifs <;> (push_cast; ring)
  have hyr : ((gridWarpTarget d r c).2 - d.pos.2) / (d.size.2 * (1 / 4) / 3)
      = (my : ℚ) + 1 / 2 := by
    rw [gridWarpTarget_eval]
    dsimp only
    rw [hrm, hrow, hmy_def, div_eq_iff (ne_of_gt hcsy)]
    push_cast; ring
  have hx : (locateCellXY d (gridWarpTarget d r c)).1 = mx := by
    rw [locateCellXY_fst, hxr]
    have h1 : (0 : ℚ) ≤ (mx : ℚ) := by exact_mod_cast hmxb.1
    exact i32cast_eval hmxb.1 (by omega) (by linarith) (by linarith)
  have hy : (locateCellXY d (gridWarpTarget d r c)).2 = my := by
    rw [locateCellXY_snd, hyr]
    have h1 : (0 : ℚ) ≤ (my : ℚ) := by exact_mod_cast hmyb.1
    exact i32cast_eval hmyb.1 (by omega) (by linarith) (by linarith)
  have hrelx : (gridWarpTarget d r c).1 - d.pos.1
      = ((mx : ℚ) + 1 / 2) * (d.size.1 * (1 / 2) / 10) :=
    (div_eq_iff (ne_of_gt hcsx)).mp hxr
  have hrely : (gridWarpTarget d r c).2 - d.pos.2
      = ((my : ℚ) + 1 / 2) * (d.size.2 * (1 / 4) / 3) :=
    (div_eq_iff (ne_of_gt hcsy)).mp hyr
  have hmxq0 : (0 : ℚ) ≤ (mx : ℚ) := by exact_mod_cast hmxb.1
  have hmxq19 : (mx : ℚ) ≤ 19 := by exact_mod_cast hmxb.2
  have hmyq0 : (0 : ℚ) ≤ (my : ℚ) := by exact_mod_cast hmyb.1
  have hmyq11 : (my : ℚ) ≤ 11 := by exact_mod_cast hmyb.2
  have hcont : rectContains d (gridWarpTarget d r c) = true := by
    simp only [rectContains, decide_eq_true_eq]
    refine ⟨by nlinarith, by nlinarith, by nlinarith, by nlinarith⟩
  refine ⟨hcont, ?_⟩
  unfold locateInDisplay
  rw [hx, hy, locateFromXY_eval,
    Int.tdiv_eq_ediv (by omega) (by norm_num : (0:ℤ) ≤ 3),
    Int.tmod_eq_emod (by omega) (by norm_num : (0:ℤ) ≤ 10),
    Int.tmod_eq_emod (by omega) (by norm_num : (0:ℤ) ≤ 3),
    Prod.mk.injEq]
  rw [hmx_def, hmy_def]
  constructor
  · split_ifs <;> omega
  · split_ifs <;> omega

/-- Witness for C1_roundtrip at display0 and the in-range pair
(region 5, cell 7). -/
theorem C1_roundtrip_witness :
    (0 : ℚ) < display0.size.1 ∧ (0 : ℚ) < display0.size.2 ∧
    rectContains display0 (gridWarpTarget display0 5 7) = true ∧
    locateInDisplay display0 (gridWarpTarget display0 5 7) = (5, 7) := by
  have h := C1_roundtrip display0 5 7 (by norm_num [display0]) (by norm_num [display0])
    (by norm_num) (by norm_num) (by norm_num) (by norm_num)
  exact ⟨by norm_num [display0], by norm_num [display0], h.1, h.2⟩

/-- Counterexample to claim C1 as stated: for region index 8 (inside
the claimed range up to 16) and cell 0, the round trip on display0
returns (4, 0), not (8, 0); the code has only 8 region keys and its
warp formula reduces region 8 modulo 4. -/
theorem C1_counterexample :
    locateInDisplay display0 (gridWarpTarget display0 8 0) = (4, 0) ∧
    locateInDisplay display0 (gridWarpTarget display0 8 0) ≠ (8, 0) := by
  refine ⟨locate_display0_warp8, ?_⟩
  rw [locate_display0_warp8]
  decide

/-- Claim C2, amended: on the display at (0,0) of size (1000,900) with
zero offset, the spec's cell (region 5, cell 7) is the code's grid
state (region 1, cell 22) in its 8-region, 30-cell addressing; the
warp target computed for it is (375, 337.5) (region origin (0,225),
right-half offset 250, cell size (50,75)), not (375, 312.5); and the
inverse mapping at (380, 320) yields (region 1, cell 22). -/
theorem C2_scenario :
    gridWarpTarget display0 1 22 = (375, 675 / 2) ∧
    locateInDisplay display0 (380, 320) = (1, 22) :=
  ⟨warp_display0_1_22, locate_display0_380_320⟩

/-- Counterexample to claim C2 as stated: neither the code's state
(region 5, cell 7) nor the translated state (region 1, cell 22)
produces the claimed pixel (375, 312.5), and the inverse mapping at
(380, 320) does not return (5, 7). -/
theorem C2_counterexample :
    gridWarpTarget display0 5 7 ≠ (375, 625 / 2) ∧
    gridWarpTarget display0 1 22 ≠ (375, 625 / 2) ∧
    locateInDisplay display0 (380, 320) ≠ (5, 7) := by
  refine ⟨?_, ?_, ?_⟩
  · rw [warp_display0_5_7]
    intro h
    rw [Prod.mk.injEq] at h
    norm_num at h
  · rw [warp_display0_1_22]
    intro h
    rw [Prod.mk.injEq] at h
    norm_num at h
  · rw [locate_display0_380_320]
    decide

/-- Claim C3, amended: in every reachable navigation state, cell is
non-negative whenever the mode is Cell, and cell = -1 can hold while
the mode is Narrow; but region and cell are not reset to -1 in Screen
mode (the startup state already has region 0, and the back key leaves
them unchanged). -/
theorem C3_invariant :
    (∀ s, Reachable s → (s.mode = Mode.Cell → 0 ≤ s.cell)) ∧
    (∃ s, Reachable s ∧ s.mode = Mode.Narrow ∧ s.cell = -1) := by
  constructor
  · intro s hs
    induction hs with
    | init displays cur cfg => intro hm; simp at hm
    | step s pressed held mouse ok hr ih =>
        exact handleInput_pres pressed held mouse ok s ih
  · refine ⟨c3Narrow, ?_, by decide, by decide⟩
    exact Reachable.step s0 (fun k => k == 60) (fun _ => false) (0, 0)
      (fun _ => true) (Reachable.init [display0] 0 cfg0)

/-- Witness for C3_invariant at the concrete reachable Cell state
c3CellState. -/
theorem C3_invariant_witness : 0 ≤ c3CellState.cell := by
  have hr : Reachable c3CellState :=
    Reachable.step c3Narrow (fun k => k == 70) (fun _ => false) (0, 0) (fun _ => true)
      (Reachable.step s0 (fun k => k == 60) (fun _ => false) (0, 0) (fun _ => true)
        (Reachable.init [display0] 0 cfg0))
  exact C3_invariant.1 c3CellState hr (by decide)

/-- Counterexample to claim C3 as stated: the reachable startup state
has mode Screen with region 0, not -1. -/
theorem C3_counterexample :
    Reachable s0 ∧ s0.mode = Mode.Screen ∧ s0.region ≠ -1 :=
  ⟨Reachable.init [display0] 0 cfg0, rfl, by decide⟩

/-- Claim C4, amended: pressing the back key in Narrow mode (with no
grid key pressed in the same frame and no effective confirm press)
transitions the mode to Screen but leaves region and cell unchanged;
the code never resets them to -1. -/
theorem C4_back (pressed : KeyId → Bool) (ok : ℕ → Bool) (s : SharedState)
    (hgrid : (s.config.key_bindings.left_grid
      ++ s.config.key_bindings.right_grid).findIdx? pressed = none)
    (hb : pressed keyBackspace = true)
    (he : pressed keyEnter = false ∨ s.cell < 0) :
    (handleGridInput pressed ok s).state.mode = Mode.Screen ∧
    (handleGridInput pressed ok s).state.region = s.region ∧
    (handleGridInput pressed ok s).state.cell = s.cell := by
  unfold handleGridInput
  dsimp only
  rw [hgrid]
  unfold afterGrid
  dsimp only
  split_ifs with h1
  all_goals first
    | exact ⟨rfl, rfl, rfl⟩
    | (rcases he with he | he
       · rw [he] at h1
         exact absurd h1.1 (by simp)
       · exact absurd h1.2 (by dsimp only; omega))

/-- Witness for C4_back in the concrete Narrow state c4State. -/
theorem C4_back_witness :
    (handleGridInput (fun k => k == keyBackspace) (fun _ => true) c4State).state.mode
      = Mode.Screen ∧
    (handleGridInput (fun k => k == keyBackspace) (fun _ => true) c4State).state.region
      = c4State.region ∧
    (handleGridInput (fun k => k == keyBackspace) (fun _ => true) c4State).state.cell
      = c4State.cell :=
  C4_back (fun k => k == keyBackspace) (fun _ => true) c4State (by decide)
    (by decide) (Or.inr (by decide))

/-- Counterexample to claim C4 as stated: pressing back in the Narrow
state with region 3 yields Screen mode with region still 3, not -1. -/
theorem C4_counterexample :
    c4Out.state.mode = Mode.Screen ∧ c4Out.state.region = 3 ∧
    c4Out.state.region ≠ -1 := by
  decide

/-- Claim C5, amended: entering Cell mode via a grid key or via
skip-to-cell clears the debounce armed-key set, but the confirm-key
(Enter) transition from Narrow leaves the set unchanged. -/
theorem C5_clearing :
    (∀ (pressed : KeyId → Bool) (ok : ℕ → Bool) (s : SharedState) (i : ℕ),
      (s.config.key_bindings.left_grid
        ++ s.config.key_bindings.right_grid).findIdx? pressed = some i →
      ok 0 = true →
      (handleGridInput pressed ok s).state.mouse_key_down = ∅) ∧
    (∀ (mouse : ℚ × ℚ) (s : SharedState) (i : ℕ) (d : Display),
      findDisplay s.displays mouse = some (i, d) →
      (skipToCell mouse s).1.mouse_key_down = ∅) ∧
    (∀ (pressed : KeyId → Bool) (ok : ℕ → Bool) (s : SharedState),
      (s.config.key_bindings.left_grid
        ++ s.config.key_bindings.right_grid).findIdx? pressed = none →
      (handleGridInput pressed ok s).state.mouse_key_down = s.mouse_key_down) := by
  refine ⟨?_, ?_, ?_⟩
  · intro pressed ok s i hfind hok
    unfold handleGridInput
    dsimp only
    rw [hfind]
    dsimp only
    rw [if_pos hok]
    rw [afterGrid_mouse_key_down]
  · intro mouse s i d hfind
    unfold skipToCell
    rw [hfind]
  · intro pressed ok s hfind
    unfold handleGridInput
    dsimp only
    rw [hfind]
    rw [afterGrid_mouse_key_down]

/-- Witness for C5_clearing: a concrete grid-key entry and a concrete
skip-to-cell entry clear the set; a concrete Enter entry keeps it. -/
theorem C5_clearing_witness :
    (handleGridInput (fun k => k == 70) (fun _ => true) c6Start).state.mouse_key_down = ∅ ∧
    (skipToCell (380, 320) c5State).1.mouse_key_down = ∅ ∧
    (handleGridInput (fun k => k == keyEnter) (fun _ => true) c5State).state.mouse_key_down
      = c5State.mouse_key_down := by
  refine ⟨?_, ?_, ?_⟩
  · exact C5_clearing.1 (fun k => k == 70) (fun _ => true) c6Start 0 (by decide) rfl
  · exact C5_clearing.2.1 (380, 320) c5State 0 display0 findDisplay_c5
  · exact C5_clearing.2.2 (fun k => k == keyEnter) (fun _ => true) c5State (by decide)

/-- Counterexample to claim C5 as stated: the confirm-key entry into
Cell (Enter in Narrow with cell 3 selected) leaves the armed-key set
non-empty. -/
theorem C5_counterexample :
    c5Out.state.mode = Mode.Cell ∧ c5Out.state.mouse_key_down ≠ ∅ := by
  decide

/-- Claim C6: for each of the eight continuous-action keys, entering
Cell via a grid key and then holding the key for five polls fires its
bound action zero times; after one released poll and three held polls,
the action fires exactly once on each of the three final polls. -/
theorem C6_debounce :
    (c6Entry.state.mode = Mode.Cell ∧ c6Entry.state.mouse_key_down = ∅) ∧
    contKeys.map (fun ka => (c6Run ka.1 c6Pattern c6Entry.state).map
      (fun l => l.count ka.2)) = List.replicate 8 [0, 0, 0, 0, 0, 0, 1, 1, 1] := by
  decide

/-- Claim C7: the relative-move distance is movement_speed with the
modifiers applied sequentially in the fixed order quarter, half,
double, quadruple, each exactly when held; with base speed 100,
quarter plus double dispatches a move of 50 and half plus double a
move of 100. -/
theorem C7_speed :
    (∀ (speed : ℤ) (q h t qd : Bool),
      computeDist speed q h t qd = specSeqSpeed speed q h t qd) ∧
    computeDist 100 true false true false = 50 ∧
    computeDist 100 false true true false = 100 ∧
    c7Quarter.actions = [Action.moveRel 50 0] ∧
    c7Half.actions = [Action.moveRel 100 0] := by
  refine ⟨fun speed q h t qd => rfl, by decide, by decide, by decide, by decide⟩

/-- Claim C8: with n displays and current display d below n, the
prev-screen transition yields (d + (n-1)) mod n and next-screen yields
(d+1) mod n; iterating either n times returns to d; and these are
exactly the current_display updates move_to_display performs for the
indices handle_screen_input computes. -/
theorem C8_screen_cycle (n d : ℕ) (hn : 1 ≤ n) (hd : d < n) :
    prevScreenIdx n d = (d + (n - 1)) % n ∧
    nextScreenIdx n d = (d + 1) % n ∧
    (prevScreenIdx n)^[n] d = d ∧
    (nextScreenIdx n)^[n] d = d ∧
    (∀ s : SharedState, s.displays.length = n → s.current_display = d →
      ((moveToDisplay s (prevTargetIdx n d)).1.current_display = prevScreenIdx n d ∧
       (moveToDisplay s (d + 1)).1.current_display = nextScreenIdx n d)) := by
  refine ⟨prevScreenIdx_eq n d hn hd, rfl, ?_, ?_, ?_⟩
  · rw [prevScreenIdx_iterate n d n hn hd]
    have h2 : d + n * (n - 1) = d + (n - 1) * n := by ring
    rw [h2, Nat.add_mul_mod_self_right, Nat.mod_eq_of_lt hd]
  · rw [nextScreenIdx_iterate n d n hd]
    have h2 : d + n = d + 1 * n := by ring
    rw [h2, Nat.add_mul_mod_self_right, Nat.mod_eq_of_lt hd]
  · intro s hlen hcur
    unfold moveToDisplay prevScreenIdx nextScreenIdx
    dsimp only
    rw [hlen]
    exact ⟨rfl, rfl⟩

/-- Witness for C8_screen_cycle with three displays starting at
display 0 (the spec scenario: prev once gives display 2). -/
theorem C8_screen_cycle_witness :
    prevScreenIdx 3 0 = (0 + (3 - 1)) % 3 ∧ nextScreenIdx 3 0 = (0 + 1) % 3 ∧
    (prevScreenIdx 3)^[3] 0 = 0 ∧ (nextScreenIdx 3)^[3] 0 = 0 := by
  have h := C8_screen_cycle 3 0 (by norm_num) (by norm_num)
  exact ⟨h.1, h.2.1, h.2.2.1, h.2.2.2.1⟩

/-- Claim C9, amended: when one enigo call of a Cell-mode frame fails,
the handler returns early, so the remaining actions of that same frame
are not attempted (the held and armed move is absent); the error is
only logged by update and the session continues (no viewport close);
with a succeeding driver the same frame would have dispatched the
move. -/
theorem C9_error_frame :
    c9Fail.err = true ∧
    c9Fail.actions = [Action.button MButton.left MDir.click] ∧
    c9Fail.cmds = [] ∧
    VPCmd.close ∉ c9Fail.cmds ∧
    c9Ok.actions = [Action.button MButton.left MDir.click, Action.moveRel 0 100] := by
  decide

/-- Counterexample to claim C9 as stated: in the failing frame the
still-pending independent move action is not attempted, although the
session does continue. -/
theorem C9_counterexample :
    c9Fail.err = true ∧
    Action.moveRel 0 100 ∉ c9Fail.actions ∧
    VPCmd.close ∉ c9Fail.cmds := by
  decide

/-- Claim C10: in Cell mode a plain left click dispatches the click
and refocuses the overlay viewport (session continues), while right
click, middle click and left-click-and-exit dispatch their click and
close the overlay viewport, terminating the session. -/
theorem C10_clicks :
    c10Left.actions = [Action.button MButton.left MDir.click] ∧
    VPCmd.focus ∈ c10Left.cmds ∧ VPCmd.close ∉ c10Left.cmds ∧
    c10Right.actions = [Action.button MButton.right MDir.click] ∧
    VPCmd.close ∈ c10Right.cmds ∧
    c10Middle.actions = [Action.button MButton.middle MDir.click] ∧
    VPCmd.close ∈ c10Middle.cmds ∧
    c10Exit.actions = [Action.button MButton.left MDir.click] ∧
    VPCmd.close ∈ c10Exit.cmds := by
  decide

end KM
